import Mathlib

/-!
Verification of the SIGITM LP FSP pipeline orchestrator
(main_base_sigitm_lp_fsp.py and src/process_data_sigitm.py).

The orchestrator code is embedded shallowly: every external collaborator
(the VPN connector, the browser scraper, the pandas transform, the
PostgreSQL handler, the filesystem) is supplied as an explicit behavior
parameter, and each embedded function returns the list of observable
events it emits (log lines, database calls, file operations) together
with its Python return value. Exceptions are modelled with Except, and
the implicit None returned by a Python function that falls off the end
of its body is modelled with Option.none.
-/

namespace Sigitm

/-- Python exception values, identified by class. Messages are elided
except where a claim needs them. -/
inductive PyExc
  | connectionError
  | runtimeError
  | timeoutError
  | fileNotFoundError
  | typeError
  | other (msg : String)
deriving DecidableEq

/-- Python truthiness of an Optional[bool] value: None is falsy. -/
def pyTruthy : Option Bool → Bool
  | some b => b
  | none => false

/-! ## VPN stage adapter: MainOrchestrator._manage_vpn_connection -/

/-- The one field of VPNConfig that _manage_vpn_connection reads. The
VPNConfig class lives in src/vpn_manager.py, an external collaborator;
the orchestrator only reads vpn_switch_timeout from it. -/
structure VPNConfig where
  vpn_switch_timeout : Nat
deriving DecidableEq

/-- Behavior of the external connect_with_fallback call executed on a
worker thread: it may return a (status, message) pair after t time
units, raise an exception after t time units, or never return. -/
inductive ConnectBehavior
  | completes (t : Nat) (status : Bool) (msg : String)
  | raises (t : Nat) (e : PyExc)
  | hangs
deriving DecidableEq

/-- Log events emitted by _manage_vpn_connection. -/
inductive VpnEvent
  | logInfoConnected
  | logErrorFailure
  | logCriticalTimeout
  | logCriticalUnexpected
deriving DecidableEq

/-- One run of _manage_vpn_connection: the log events, the Python
return value (none models the implicit None when the body falls
through without a return statement), and the elapsed time. -/
structure VpnRun where
  trace : List VpnEvent
  ret : Option Bool
  elapsed : Nat
deriving DecidableEq

/-- The deadline passed to asyncio.wait_for at line 33 of
main_base_sigitm_lp_fsp.py: self.vpn_config.vpn_switch_timeout + 10. -/
def vpnDeadline (cfg : VPNConfig) : Nat :=
  cfg.vpn_switch_timeout + 10

/-- Shallow embedding of MainOrchestrator._manage_vpn_connection
(lines 25 to 46). asyncio.wait_for delivers the worker result if it
arrives within the deadline and raises TimeoutError at the deadline
otherwise. The status-false branch logs an error and falls through the
end of the try block, so the function returns None there. -/
def manage_vpn_connection (cfg : VPNConfig) (b : ConnectBehavior) : VpnRun :=
  match b with
  | .completes t status _msg =>
    if t ≤ vpnDeadline cfg then
      if status then
        ⟨[.logInfoConnected], some true, t⟩
      else
        ⟨[.logErrorFailure], none, t⟩
    else
      ⟨[.logCriticalTimeout], some false, vpnDeadline cfg⟩
  | .raises t e =>
    if t ≤ vpnDeadline cfg then
      match e with
      | .timeoutError => ⟨[.logCriticalTimeout], some false, t⟩
      | _ => ⟨[.logCriticalUnexpected], some false, t⟩
    else
      ⟨[.logCriticalTimeout], some false, vpnDeadline cfg⟩
  | .hangs =>
    ⟨[.logCriticalTimeout], some false, vpnDeadline cfg⟩

/-! ## Extraction stage adapter: MainOrchestrator._extract_step -/

/-- Events emitted by _extract_step: the start log and each call to
scraper.close. -/
inductive ExtractEvent
  | logStart
  | closeCall
deriving DecidableEq

/-- One run of _extract_step: the events and the outcome delivered to
the caller, which is either the (success, path) pair returned by the
scraping workflow or the exception it raised. -/
structure ExtractRun where
  trace : List ExtractEvent
  outcome : Except PyExc (Bool × Option String)

/-- Shallow embedding of MainOrchestrator._extract_step (lines 48 to
57). The behavior of scraper.execute_process_sigitm is the parameter;
the try/finally guarantees the close call on both the return path and
the exception path. -/
def extract_step (exec : Except PyExc (Bool × Option String)) : ExtractRun :=
  match exec with
  | .ok r => ⟨[.logStart, .closeCall], .ok r⟩
  | .error e => ⟨[.logStart, .closeCall], .error e⟩

/-! ## Load stage: MainOrchestrator._load_step -/

/-- Abstract pandas DataFrame: only its row count is observable to the
orchestrator. -/
structure DataFrame where
  nrows : Nat
deriving DecidableEq

/-- The FileProcessingResult dataclass of process_data_sigitm.py. -/
structure FileProcessingResult where
  success : Bool
  message : String
  dataframe : Option DataFrame := none
deriving DecidableEq

/-- Observable events of one _load_step run. Log messages are elided;
each constructor records the call or the log line it stands for. -/
inductive LoadEvent
  | processFile
  | logTransformError
  | logRowsInfo
  | dbConnect
  | logDbInfo
  | tableExistsCheck
  | createTable
  | logTableCreated
  | bulkInsert
  | logLoadDone
  | deleteFile (r : Bool)
  | logCriticalLoadError
deriving DecidableEq

/-- Behaviors of the collaborators _load_step calls, one field per
call site. Every database call may raise. The deleteFile field is a
plain Bool because handler.delete_most_recent_file catches every
exception internally and returns a Bool (see
delete_most_recent_file below). -/
structure LoadEnv where
  processResult : Except PyExc FileProcessingResult
  dbEnter : Except PyExc Unit
  tableExists : Except PyExc Bool
  createTable : Except PyExc Unit
  bulkInsert : Except PyExc Unit
  deleteFile : Bool

/-- Tail of the with-block after the conditional table creation:
bulk insert, success log, artifact deletion, return True. -/
def after_create (env : LoadEnv) (pre : List LoadEvent) :
    List LoadEvent × Except PyExc Bool :=
  match env.bulkInsert with
  | .error e => (pre ++ [.bulkInsert], .error e)
  | .ok _ =>
    (pre ++ [.bulkInsert, .logLoadDone, .deleteFile env.deleteFile], .ok true)

/-- The try-block body of _load_step (lines 62 to 89): transform
phase, then the persist phase inside the database with-block. A
success result with a missing dataframe makes len(df) raise TypeError,
which the same try-block catches. -/
def load_step_body (env : LoadEnv) : List LoadEvent × Except PyExc Bool :=
  match env.processResult with
  | .error e => ([.processFile], .error e)
  | .ok result =>
    if result.success = false then
      ([.processFile, .logTransformError], .ok false)
    else
      match result.dataframe with
      | none => ([.processFile], .error .typeError)
      | some _df =>
        match env.dbEnter with
        | .error e => ([.processFile, .logRowsInfo], .error e)
        | .ok _ =>
          let pre := [LoadEvent.processFile, .logRowsInfo, .dbConnect, .logDbInfo]
          match env.tableExists with
          | .error e => (pre ++ [.tableExistsCheck], .error e)
          | .ok texists =>
            if texists = false then
              match env.createTable with
              | .error e => (pre ++ [.tableExistsCheck, .createTable], .error e)
              | .ok _ =>
                after_create env
                  (pre ++ [.tableExistsCheck, .createTable, .logTableCreated])
            else
              after_create env (pre ++ [.tableExistsCheck])

/-- Shallow embedding of MainOrchestrator._load_step (lines 59 to 92):
the try-block body with the except handler at the top of the stage,
which logs and converts any exception into a False return. -/
def load_step (env : LoadEnv) : List LoadEvent × Bool :=
  match load_step_body env with
  | (tr, .ok b) => (tr, b)
  | (tr, .error _e) => (tr ++ [.logCriticalLoadError], false)

/-! ## ExcelFileHandler (process_data_sigitm.py) -/

/-- A directory entry as seen by glob and stat: file name and
modification time. -/
structure DirEntry where
  name : String
  mtime : Nat
deriving DecidableEq

/-- Environment of ExcelFileHandler: the directory listing and the
outcomes of the external calls (pandas read_excel, the dataframe
transformations, Path.unlink). -/
structure FsEnv where
  listing : List DirEntry
  readExcel : String → Except PyExc DataFrame
  processDf : DataFrame → Except PyExc DataFrame
  unlink : String → Except PyExc Unit

/-- Observable events of the handler. -/
inductive ExcelEvent
  | logNoFileError
  | logTargetInfo (path : String)
  | readFile (path : String)
  | logProcessedInfo
  | logProcessError
  | unlinkFile (path : String)
  | logRemovedInfo
  | logRemoveError
deriving DecidableEq

/-- The character level test that a file name starts with the
configured name start, as the glob pattern of a literal followed by a
star matches. -/
def strStartsWith (s p : String) : Bool :=
  List.isPrefixOf p.data s.data

/-- The files matched by directory.glob of the pattern pfx followed by
a star: names starting with the configured file name start. -/
def matchingFiles (pfx : String) (listing : List DirEntry) : List DirEntry :=
  listing.filter (fun f => strStartsWith f.name pfx)

/-- Python max over a nonempty list keyed by st_mtime: keeps the first
of equally recent files, as Python max does. -/
def maxByMtime (hd : DirEntry) (tl : List DirEntry) : DirEntry :=
  tl.foldl (fun acc f => if acc.mtime < f.mtime then f else acc) hd

/-- Shallow embedding of ExcelFileHandler._find_most_recent_file
(lines 84 to 101): raises FileNotFoundError when no file matches,
otherwise returns the most recently modified matching file. -/
def find_most_recent_file (pfx : String) (listing : List DirEntry) :
    Except PyExc String :=
  match matchingFiles pfx listing with
  | [] => .error .fileNotFoundError
  | hd :: tl => .ok (maxByMtime hd tl).name

/-- Shallow embedding of ExcelFileHandler._load_to_dataframe (lines
165 to 178): reads the file, transforms it, and converts any raised
exception into a failure result. Exception text in the messages is
elided. -/
def load_to_dataframe (env : FsEnv) (path : String) :
    List ExcelEvent × FileProcessingResult :=
  match env.readExcel path with
  | .error _e =>
    ([.readFile path], ⟨false, "Erro ao processar arquivo", none⟩)
  | .ok df =>
    match env.processDf df with
    | .error _e =>
      ([.readFile path], ⟨false, "Erro ao processar arquivo", none⟩)
    | .ok pdf =>
      ([.readFile path, .logProcessedInfo],
       ⟨true, "Arquivo processado com sucesso", some pdf⟩)

/-- The target resolution shared by the two public handler methods:
the given path when truthy, otherwise the disk fallback. A None
argument is the falsy case. -/
def resolveTarget (pfx : String) (listing : List DirEntry)
    (file_path : Option String) : Except PyExc String :=
  match file_path with
  | some p => .ok p
  | none => find_most_recent_file pfx listing

/-- Shallow embedding of ExcelFileHandler.process_most_recent_file
(lines 180 to 195): resolves the target, processes it, and converts a
resolution exception into a failure result. -/
def process_most_recent_file (pfx : String) (env : FsEnv)
    (file_path : Option String) : List ExcelEvent × FileProcessingResult :=
  match resolveTarget pfx env.listing file_path with
  | .error _e =>
    ([.logNoFileError, .logProcessError],
     ⟨false, "Erro ao processar arquivo mais recente", none⟩)
  | .ok target =>
    let r := load_to_dataframe env target
    (.logTargetInfo target :: r.1, r.2)

/-- Shallow embedding of ExcelFileHandler.delete_most_recent_file
(lines 197 to 212): resolves the target, unlinks it, and converts any
exception into a False return. -/
def delete_most_recent_file (pfx : String) (env : FsEnv)
    (file_path : Option String) : List ExcelEvent × Bool :=
  match resolveTarget pfx env.listing file_path with
  | .error _e => ([.logNoFileError, .logRemoveError], false)
  | .ok target =>
    match env.unlink target with
    | .error _e => ([.unlinkFile target, .logRemoveError], false)
    | .ok _ => ([.unlinkFile target, .logRemovedInfo], true)

/-! ## Elapsed time formatting -/

/-- Decimal digit characters of a natural number, as Python str. -/
def natChars (n : Nat) : List Char :=
  Nat.toDigits 10 n

/-- Two digit zero padded rendering used by timedelta for minutes and
seconds. -/
def pad2 (n : Nat) : List Char :=
  if n < 10 then '0' :: natChars n else natChars n

/-- Python str of timedelta(seconds = n) for a nonnegative count:
an optional day part, then hours unpadded, minutes and seconds two
digit padded. -/
def strTimedelta (n : Nat) : List Char :=
  let d := n / 86400
  let h := n % 86400 / 3600
  let m := n % 3600 / 60
  let s := n % 60
  let hms := natChars h ++ ':' :: (pad2 m ++ ':' :: pad2 s)
  if d = 0 then hms
  else if d = 1 then "1 day, ".toList ++ hms
  else natChars d ++ " days, ".toList ++ hms

/-- Python str.zfill for strings without a sign character. -/
def zfillChars (w : Nat) (cs : List Char) : List Char :=
  List.replicate (w - cs.length) '0' ++ cs

/-- The readable_time value computed at line 116:
str(timedelta(seconds = int(total_time))).zfill(8). -/
def readableTime (n : Nat) : String :=
  String.mk (zfillChars 8 (strTimedelta n))

/-- Checks the zero padded HH:MM:SS shape: exactly eight characters,
six digits and two colons in fixed positions. -/
def isHMSChars : List Char → Bool
  | [h1, h2, c1, m1, m2, c2, s1, s2] =>
    h1.isDigit && h2.isDigit && m1.isDigit && m2.isDigit &&
      s1.isDigit && s2.isDigit && (c1 == ':') && (c2 == ':')
  | _ => false

/-- The HH:MM:SS shape check on a string. -/
def isZeroPaddedHMS (s : String) : Bool :=
  isHMSChars s.data

/-- Helper shape check: a one or two digit character list. -/
def isOneOrTwoDigits : List Char → Bool
  | [a] => a.isDigit
  | [a, b] => a.isDigit && b.isDigit
  | _ => false

/-- Helper shape check: exactly two digit characters. -/
def isTwoDigits : List Char → Bool
  | [a, b] => a.isDigit && b.isDigit
  | _ => false

/-! ## Pipeline orchestrator: MainOrchestrator.run_pipeline -/

/-- The retry configuration set in MainOrchestrator.__init__. -/
structure OrchestratorConfig where
  max_retries : Nat
  retry_delay : Nat
  vpn_config : VPNConfig

/-- The configuration the source constructs: max_retries = 3,
retry_delay = 10. -/
def defaultOrchestrator (vcfg : VPNConfig) : OrchestratorConfig :=
  ⟨3, 10, vcfg⟩

/-- Per attempt behaviors of the collaborators, indexed by the attempt
number, plus the truncated elapsed seconds observed when an attempt
finishes a successful load. -/
structure PipelineEnv where
  connect : Nat → ConnectBehavior
  extract : Nat → Except PyExc (Bool × Option String)
  load : Nat → LoadEnv
  elapsed : Nat → Nat

/-- Observable events of run_pipeline, the stage internal events
elided. -/
inductive PipeEvent
  | logAttemptStart (k : Nat)
  | logDone (timeStr : String)
  | logWarnFailure (k : Nat)
  | logWaitInfo
  | sleepDelay (d : Nat)
  | logCriticalExhausted
deriving DecidableEq

/-- Outcome of one try-block body (lines 103 to 118). -/
inductive AttemptOutcome
  | success (timeStr : String)
  | failedExc (e : PyExc)
  | failedLoad
deriving DecidableEq

/-- One attempt body: VPN stage (falsy result raises ConnectionError),
extraction stage (an exception propagates; a false success or a
missing path raises RuntimeError), then the load stage. A True load
logs the formatted elapsed time and calls sys.exit(0); a False load
raises nothing, so the loop proceeds silently to the next attempt. -/
def attempt_body (cfg : OrchestratorConfig) (env : PipelineEnv) (k : Nat) :
    AttemptOutcome :=
  if pyTruthy (manage_vpn_connection cfg.vpn_config (env.connect k)).ret = false then
    .failedExc .connectionError
  else
    match (extract_step (env.extract k)).outcome with
    | .error e => .failedExc e
    | .ok (success_ext, file_path) =>
      if success_ext = false ∨ file_path = none then
        .failedExc .runtimeError
      else if (load_step (env.load k)).2 then
        .success (readableTime (env.elapsed k))
      else
        .failedLoad

/-- The retry loop from attempt k with the given number of iterations
remaining. SystemExit from sys.exit(0) is not an Exception, so it
ends the loop. The attempt-level handler keeps the always true guard
attempt <= max_retries of line 122 exactly as the source has it.
Returns the event list and the process exit status. -/
def run_from (cfg : OrchestratorConfig) (env : PipelineEnv) (k : Nat) :
    Nat → List PipeEvent × Nat
  | 0 => ([.logCriticalExhausted], 1)
  | remaining + 1 =>
    match attempt_body cfg env k with
    | .success timeStr => ([.logAttemptStart k, .logDone timeStr], 0)
    | .failedExc _e =>
      let waitPart :=
        if k ≤ cfg.max_retries then
          [PipeEvent.logWaitInfo, .sleepDelay cfg.retry_delay]
        else []
      let rest := run_from cfg env (k + 1) remaining
      (([.logAttemptStart k, .logWarnFailure k] ++ waitPart) ++ rest.1, rest.2)
    | .failedLoad =>
      let rest := run_from cfg env (k + 1) remaining
      (.logAttemptStart k :: rest.1, rest.2)

/-- Shallow embedding of MainOrchestrator.run_pipeline (lines 94 to
127): attempts 1 to max_retries, then sys.exit(1) on exhaustion. -/
def run_pipeline (cfg : OrchestratorConfig) (env : PipelineEnv) :
    List PipeEvent × Nat :=
  run_from cfg env 1 cfg.max_retries

/-- Counts the attempt start log pairs in a pipeline trace. -/
def isAttemptStart : PipeEvent → Bool
  | .logAttemptStart _ => true
  | _ => false

/-! ## Concrete environments used by witnesses and counterexamples -/

/-- A load environment in which every phase succeeds. -/
def envLoadOk : LoadEnv :=
  ⟨.ok ⟨true, "ok", some ⟨5⟩⟩, .ok (), .ok false, .ok (), .ok (), true⟩

/-- A load environment in which the bulk insert raises after the
table was created. -/
def envInsertRaises : LoadEnv :=
  ⟨.ok ⟨true, "ok", some ⟨5⟩⟩, .ok (), .ok false, .ok (), .error .runtimeError, true⟩

/-- A load environment in which the transform collaborator reports
failure. -/
def envTransformFail : LoadEnv :=
  ⟨.ok ⟨false, "bad", none⟩, .ok (), .ok false, .ok (), .ok (), true⟩

/-- A load environment in which every phase succeeds except the
artifact deletion, which reports failure. -/
def envDeleteFails : LoadEnv :=
  ⟨.ok ⟨true, "ok", some ⟨5⟩⟩, .ok (), .ok true, .ok (), .ok (), false⟩

/-- A filesystem environment in which Path.unlink raises. -/
def envFsUnlinkFails : FsEnv :=
  ⟨[], fun _ => .ok ⟨1⟩, fun d => .ok d, fun _ => .error (.other "perm")⟩

/-- A pipeline environment in which the VPN connector reports failure
on every attempt. -/
def envAllVpnFail : PipelineEnv :=
  ⟨fun _ => .completes 0 false "down", fun _ => .ok (true, some "report.xlsx"),
   fun _ => envLoadOk, fun _ => 0⟩

/-- A pipeline environment in which every stage succeeds on every
attempt and a successful attempt observes 86400 elapsed seconds. -/
def envDayLong : PipelineEnv :=
  ⟨fun _ => .completes 0 true "up", fun _ => .ok (true, some "report.xlsx"),
   fun _ => envLoadOk, fun _ => 86400⟩

/-- A filesystem environment with two matching files and one
non-matching file; the second matching file is the most recent. -/
def envFsTwoFiles : FsEnv :=
  ⟨[⟨"CONSULTA_A", 5⟩, ⟨"other", 9⟩, ⟨"CONSULTA_B", 7⟩],
   fun _ => .ok ⟨2⟩, fun d => .ok d, fun _ => .ok ()⟩

/-- A filesystem environment whose directory holds no matching file. -/
def envFsEmpty : FsEnv :=
  ⟨[⟨"other", 1⟩], fun _ => .ok ⟨2⟩, fun d => .ok d, fun _ => .ok ()⟩

/-- A pipeline environment whose first attempt fails at the VPN stage
and whose second attempt succeeds, observing 3661 elapsed seconds. -/
def envRetryThenOk : PipelineEnv :=
  ⟨fun k => if k = 1 then .completes 0 false "down" else .completes 0 true "up",
   fun _ => .ok (true, some "report.xlsx"), fun _ => envLoadOk, fun _ => 3661⟩

/-! ## Theorems for the VPN and extraction adapters -/

/-- C2: when connect_with_fallback completes within the timeout but
reports failure (status false, no exception), _manage_vpn_connection
logs an error and the value its caller receives is falsy: the body
falls through without a return statement, so the caller receives None,
which is falsy. -/
theorem vpn_reported_failure_logs_and_returns_falsy
    (cfg : VPNConfig) (t : Nat) (msg : String) (ht : t ≤ vpnDeadline cfg) :
    (manage_vpn_connection cfg (.completes t false msg)).ret = none ∧
    pyTruthy (manage_vpn_connection cfg (.completes t false msg)).ret = false ∧
    VpnEvent.logErrorFailure ∈
      (manage_vpn_connection cfg (.completes t false msg)).trace := by
  simp [manage_vpn_connection, ht, pyTruthy]

/-- Witness for C2 at a concrete configuration and delay. -/
theorem vpn_reported_failure_logs_and_returns_falsy_witness :
    (manage_vpn_connection ⟨5⟩ (.completes 3 false "down")).ret = none ∧
    pyTruthy (manage_vpn_connection ⟨5⟩ (.completes 3 false "down")).ret = false ∧
    VpnEvent.logErrorFailure ∈
      (manage_vpn_connection ⟨5⟩ (.completes 3 false "down")).trace :=
  vpn_reported_failure_logs_and_returns_falsy ⟨5⟩ 3 "down" (by decide)

/-- C8: the adapter awaits connect_with_fallback with a hard deadline
of vpn_switch_timeout + 10; every run finishes at or before that
deadline, and when the connector never returns the adapter logs at
critical severity and returns false exactly at the deadline. -/
theorem vpn_timeout_bounded (cfg : VPNConfig) (b : ConnectBehavior) :
    vpnDeadline cfg = cfg.vpn_switch_timeout + 10 ∧
    (manage_vpn_connection cfg b).elapsed ≤ cfg.vpn_switch_timeout + 10 ∧
    (b = .hangs →
      (manage_vpn_connection cfg b).ret = some false ∧
      VpnEvent.logCriticalTimeout ∈ (manage_vpn_connection cfg b).trace ∧
      (manage_vpn_connection cfg b).elapsed = cfg.vpn_switch_timeout + 10) := by
  refine ⟨rfl, ?_, ?_⟩
  · cases b with
    | completes t status msg =>
      simp only [manage_vpn_connection]
      split_ifs with h1 h2 <;> simp [vpnDeadline] at * <;> omega
    | raises t e =>
      simp only [manage_vpn_connection]
      split_ifs with h1
      · cases e <;> simp [vpnDeadline] at * <;> omega
      · simp [vpnDeadline]
    | hangs => simp [manage_vpn_connection, vpnDeadline]
  · rintro rfl
    simp [manage_vpn_connection, vpnDeadline]

/-- Witness for C8 with a hanging connector and a 5 unit switch
timeout. -/
theorem vpn_timeout_bounded_witness :
    (manage_vpn_connection ⟨5⟩ ConnectBehavior.hangs).ret = some false ∧
    (manage_vpn_connection ⟨5⟩ ConnectBehavior.hangs).elapsed = 5 + 10 := by
  have h := (vpn_timeout_bounded ⟨5⟩ ConnectBehavior.hangs).2.2 rfl
  exact ⟨h.1, h.2.2⟩

/-- C3: on every execution of _extract_step the session close routine
runs exactly once, whether the scraping workflow returns a tuple or
raises; the workflow result or exception itself is passed through
unchanged. -/
theorem extract_step_closes_exactly_once
    (exec : Except PyExc (Bool × Option String)) :
    (extract_step exec).trace.count ExtractEvent.closeCall = 1 ∧
    (extract_step exec).outcome = exec := by
  cases exec <;> simp [extract_step]

/-! ## Theorems for the load stage -/

/-- C5: any exception raised in either phase of the _load_step body is
caught at the top of the stage, an error line is logged after the
events already emitted, and the stage returns False; the embedded
load_step returns a plain Bool, so no exception reaches the caller. -/
theorem load_step_catches_all_exceptions (env : LoadEnv)
    (tr : List LoadEvent) (e : PyExc)
    (h : load_step_body env = (tr, .error e)) :
    load_step env = (tr ++ [.logCriticalLoadError], false) := by
  simp [load_step, h]

/-- Witness for C5: the bulk insert raises after table creation and
_load_step returns False with the error logged. -/
theorem load_step_catches_all_exceptions_witness :
    load_step envInsertRaises =
      ([LoadEvent.processFile, .logRowsInfo, .dbConnect, .logDbInfo,
        .tableExistsCheck, .createTable, .logTableCreated, .bulkInsert,
        .logCriticalLoadError], false) := by
  have h := load_step_catches_all_exceptions envInsertRaises
    [LoadEvent.processFile, .logRowsInfo, .dbConnect, .logDbInfo,
     .tableExistsCheck, .createTable, .logTableCreated, .bulkInsert]
    PyExc.runtimeError rfl
  simpa using h

/-- C6: when the transform collaborator reports failure, _load_step
logs and returns False immediately and the persist phase is never
invoked: no database connection, table-exists check, table creation,
bulk insert, or artifact deletion appears in the trace. -/
theorem load_step_transform_failure_short_circuits (env : LoadEnv)
    (r : FileProcessingResult) (hp : env.processResult = .ok r)
    (hs : r.success = false) :
    load_step env = ([.processFile, .logTransformError], false) ∧
    LoadEvent.dbConnect ∉ (load_step env).1 ∧
    LoadEvent.tableExistsCheck ∉ (load_step env).1 ∧
    LoadEvent.createTable ∉ (load_step env).1 ∧
    LoadEvent.bulkInsert ∉ (load_step env).1 ∧
    ∀ b, LoadEvent.deleteFile b ∉ (load_step env).1 := by
  have hstep : load_step env = ([.processFile, .logTransformError], false) := by
    simp [load_step, load_step_body, hp, hs]
  refine ⟨hstep, ?_, ?_, ?_, ?_, ?_⟩ <;> simp [hstep]

/-- Witness for C6 at a concrete failing transform environment. -/
theorem load_step_transform_failure_short_circuits_witness :
    load_step envTransformFail = ([.processFile, .logTransformError], false) ∧
    LoadEvent.dbConnect ∉ (load_step envTransformFail).1 ∧
    LoadEvent.tableExistsCheck ∉ (load_step envTransformFail).1 ∧
    LoadEvent.createTable ∉ (load_step envTransformFail).1 ∧
    LoadEvent.bulkInsert ∉ (load_step envTransformFail).1 ∧
    ∀ b, LoadEvent.deleteFile b ∉ (load_step envTransformFail).1 :=
  load_step_transform_failure_short_circuits envTransformFail
    ⟨false, "bad", none⟩ rfl rfl

/-- Helper: a deleteFile event in a _load_step trace can only come
from the one call site after a successful bulk insert; it pins down
the result, the shape of the trace, and the delete argument. -/
theorem load_step_delete_characterization (env : LoadEnv) (b : Bool)
    (h : LoadEvent.deleteFile b ∈ (load_step env).1) :
    b = env.deleteFile ∧ env.bulkInsert = Except.ok () ∧
    (load_step env).2 = true ∧
    ∃ pre, (load_step env).1 =
        pre ++ [LoadEvent.bulkInsert, .logLoadDone, .deleteFile b] ∧
      LoadEvent.bulkInsert ∉ pre ∧
      (LoadEvent.createTable ∈ (load_step env).1 →
        LoadEvent.createTable ∈ pre) := by
  obtain ⟨pr, de, te, ct, bi, del⟩ := env
  rcases pr with e | ⟨su, msg, df⟩
  · simp [load_step, load_step_body] at h
  cases su
  · simp [load_step, load_step_body] at h
  rcases df with _ | d
  · simp [load_step, load_step_body] at h
  rcases de with e | u
  · simp [load_step, load_step_body] at h
  rcases te with e | texists
  · simp [load_step, load_step_body] at h
  cases texists
  · rcases ct with e | u2
    · simp [load_step, load_step_body] at h
    rcases bi with e | u3
    · simp [load_step, load_step_body, after_create] at h
    have hstep : load_step ⟨.ok ⟨true, msg, some d⟩, .ok u, .ok false,
        .ok u2, .ok u3, del⟩ =
        ([LoadEvent.processFile, .logRowsInfo, .dbConnect, .logDbInfo,
          .tableExistsCheck, .createTable, .logTableCreated, .bulkInsert,
          .logLoadDone, .deleteFile del], true) := by
      simp [load_step, load_step_body, after_create]
    rw [hstep] at h
    simp at h
    subst h
    refine ⟨rfl, rfl, by rw [hstep],
      [LoadEvent.processFile, .logRowsInfo, .dbConnect, .logDbInfo,
       .tableExistsCheck, .createTable, .logTableCreated],
      by rw [hstep]; rfl, by decide, fun _ => by decide⟩
  · rcases bi with e | u3
    · simp [load_step, load_step_body, after_create] at h
    have hstep : load_step ⟨.ok ⟨true, msg, some d⟩, .ok u, .ok true,
        ct, .ok u3, del⟩ =
        ([LoadEvent.processFile, .logRowsInfo, .dbConnect, .logDbInfo,
          .tableExistsCheck, .bulkInsert, .logLoadDone, .deleteFile del],
         true) := by
      simp [load_step, load_step_body, after_create]
    rw [hstep] at h
    simp at h
    subst h
    refine ⟨rfl, rfl, by rw [hstep],
      [LoadEvent.processFile, .logRowsInfo, .dbConnect, .logDbInfo,
       .tableExistsCheck],
      by rw [hstep]; rfl, by decide, ?_⟩
    intro hc
    rw [hstep] at hc
    simp at hc

/-- C4: artifact deletion never precedes a successful bulk insert:
whenever a deleteFile event occurs, the insert collaborator succeeded
and the trace orders the (conditional) table creation before the bulk
insert before the deletion; and whenever the bulk insert raises, no
deletion occurs. -/
theorem load_step_delete_never_precedes_insert (env : LoadEnv) :
    (∀ b, LoadEvent.deleteFile b ∈ (load_step env).1 →
      env.bulkInsert = Except.ok () ∧
      List.Sublist [LoadEvent.bulkInsert, LoadEvent.deleteFile b]
        (load_step env).1 ∧
      (LoadEvent.createTable ∈ (load_step env).1 →
        List.Sublist
          [LoadEvent.createTable, LoadEvent.bulkInsert, LoadEvent.deleteFile b]
          (load_step env).1)) ∧
    (∀ e, env.bulkInsert = Except.error e →
      ∀ b, LoadEvent.deleteFile b ∉ (load_step env).1) := by
  constructor
  · intro b h
    obtain ⟨hb, hbi, hres, pre, htr, hpre, hct⟩ :=
      load_step_delete_characterization env b h
    have h1 : List.Sublist [LoadEvent.bulkInsert, LoadEvent.deleteFile b]
        [LoadEvent.bulkInsert, .logLoadDone, .deleteFile b] :=
      List.Sublist.cons₂ _ (List.Sublist.cons _ (List.Sublist.refl _))
    refine ⟨hbi, ?_, ?_⟩
    · rw [htr]
      exact h1.trans (List.sublist_append_right pre _)
    · intro hctTr
      obtain ⟨p1, p2, hpre2⟩ := List.append_of_mem (hct hctTr)
      rw [htr, hpre2, List.append_assoc, List.cons_append]
      have h2 : List.Sublist [LoadEvent.bulkInsert, LoadEvent.deleteFile b]
          (p2 ++ [LoadEvent.bulkInsert, .logLoadDone, .deleteFile b]) :=
        h1.trans (List.sublist_append_right p2 _)
      exact (List.Sublist.cons₂ _ h2).trans (List.sublist_append_right p1 _)
  · intro e he b hmem
    obtain ⟨_, hbi, _, _⟩ := load_step_delete_characterization env b hmem
    rw [he] at hbi
    exact Except.noConfusion hbi

/-- Witness for C4 at a concrete fully successful load environment in
which the table had to be created. -/
theorem load_step_delete_never_precedes_insert_witness :
    envLoadOk.bulkInsert = Except.ok () ∧
    List.Sublist [LoadEvent.bulkInsert, LoadEvent.deleteFile true]
      (load_step envLoadOk).1 ∧
    (LoadEvent.createTable ∈ (load_step envLoadOk).1 →
      List.Sublist
        [LoadEvent.createTable, LoadEvent.bulkInsert, LoadEvent.deleteFile true]
        (load_step envLoadOk).1) :=
  (load_step_delete_never_precedes_insert envLoadOk).1 true (by decide)

/-- C9: a deletion reported as failed after a committed insert does
not invalidate the load: _load_step still returns True; and
delete_most_recent_file itself converts a raising unlink into a
logged error and a False return, never an exception. -/
theorem load_step_delete_failure_still_true :
    (∀ env : LoadEnv, LoadEvent.deleteFile false ∈ (load_step env).1 →
      (load_step env).2 = true) ∧
    (∀ (pfx fp : String) (env : FsEnv) (e : PyExc),
      env.unlink fp = .error e →
      delete_most_recent_file pfx env (some fp) =
        ([.unlinkFile fp, .logRemoveError], false)) := by
  constructor
  · intro env h
    exact (load_step_delete_characterization env false h).2.2.1
  · intro pfx fp env e he
    simp [delete_most_recent_file, resolveTarget, he]

/-- Witness for C9: a concrete environment whose deletion reports
failure yet the load returns True, and a concrete raising unlink that
is logged and converted to False. -/
theorem load_step_delete_failure_still_true_witness :
    (load_step envDeleteFails).2 = true ∧
    delete_most_recent_file "CONSULTA" envFsUnlinkFails (some "f.xlsx") =
      ([.unlinkFile "f.xlsx", .logRemoveError], false) :=
  ⟨load_step_delete_failure_still_true.1 envDeleteFails (by decide),
   load_step_delete_failure_still_true.2 "CONSULTA" "f.xlsx" envFsUnlinkFails
     (.other "perm") rfl⟩

/-! ## Theorems for the retry loop -/

/-- C1 exhibit: when the VPN stage fails on every attempt of the
default configuration (max_retries = 3), the process exits with
status 1 but the retry delay sleep runs 3 times, not 2: the guard
attempt <= max_retries at line 122 is always true inside the loop, so
a trailing sleep follows the final failed attempt. -/
theorem run_pipeline_exhaustion_trailing_sleep :
    (run_pipeline (defaultOrchestrator ⟨5⟩) envAllVpnFail).2 = 1 ∧
    (run_pipeline (defaultOrchestrator ⟨5⟩) envAllVpnFail).1.count
      (PipeEvent.sleepDelay 10) = 3 := by
  constructor <;> rfl

/-- C7 counterexample: on a successful load observed at 86400 elapsed
seconds the process exits 0, but the logged duration string is
1 day, 0:00:00, which is not of the zero padded HH:MM:SS shape. -/
theorem run_pipeline_success_format_counterexample :
    (run_pipeline (defaultOrchestrator ⟨5⟩) envDayLong).2 = 0 ∧
    (run_pipeline (defaultOrchestrator ⟨5⟩) envDayLong).1 =
      [.logAttemptStart 1, .logDone "1 day, 0:00:00"] ∧
    isZeroPaddedHMS "1 day, 0:00:00" = false := by
  refine ⟨rfl, ?_, rfl⟩
  decide

/-! ## Theorems for ExcelFileHandler -/

/-- Helper: the file chosen by Python max over a nonempty candidate
list is one of the candidates. -/
theorem maxByMtime_mem (hd : DirEntry) (tl : List DirEntry) :
    maxByMtime hd tl ∈ hd :: tl := by
  induction tl generalizing hd with
  | nil => simp [maxByMtime]
  | cons f tl ih =>
    have hstep : maxByMtime hd (f :: tl) =
        maxByMtime (if hd.mtime < f.mtime then f else hd) tl := rfl
    rw [hstep]
    by_cases hc : hd.mtime < f.mtime
    · rw [if_pos hc]
      have h2 := ih f
      simp [List.mem_cons] at h2 ⊢
      tauto
    · rw [if_neg hc]
      have h2 := ih hd
      simp [List.mem_cons] at h2 ⊢
      tauto

/-- Helper: the file chosen by Python max over a nonempty candidate
list has the greatest modification time among the candidates. -/
theorem maxByMtime_maximal (hd : DirEntry) (tl : List DirEntry) :
    ∀ g ∈ hd :: tl, g.mtime ≤ (maxByMtime hd tl).mtime := by
  induction tl generalizing hd with
  | nil =>
    intro g hg
    simp [List.mem_singleton] at hg
    subst hg
    simp [maxByMtime]
  | cons f tl ih =>
    intro g hg
    have hstep : maxByMtime hd (f :: tl) =
        maxByMtime (if hd.mtime < f.mtime then f else hd) tl := rfl
    rw [hstep]
    set a := if hd.mtime < f.mtime then f else hd with ha
    have hhd : hd.mtime ≤ a.mtime := by
      rw [ha]; split_ifs with hc
      · exact Nat.le_of_lt hc
      · exact Nat.le_refl _
    have hf : f.mtime ≤ a.mtime := by
      rw [ha]; split_ifs with hc
      · exact Nat.le_refl _
      · exact Nat.le_of_not_lt hc
    have haMax : a.mtime ≤ (maxByMtime a tl).mtime :=
      ih a a (List.mem_cons_self _ _)
    rcases List.mem_cons.mp hg with h | h
    · subst h; exact le_trans hhd haMax
    rcases List.mem_cons.mp h with h2 | h2
    · subst h2; exact le_trans hf haMax
    · exact ih a g (List.mem_cons_of_mem _ h2)

/-- C10: with a falsy (None) file path the handler falls back to
scanning the directory. When some file name starts with the
configured file name start, both public methods operate on the most
recently modified such file; when none does, process returns a
failure result and delete returns False, neither raising. -/
theorem handler_none_path_fallback (pfx : String) (env : FsEnv) :
    (∀ hd tl, matchingFiles pfx env.listing = hd :: tl →
      strStartsWith (maxByMtime hd tl).name pfx = true ∧
      maxByMtime hd tl ∈ env.listing ∧
      (∀ g ∈ matchingFiles pfx env.listing,
        g.mtime ≤ (maxByMtime hd tl).mtime) ∧
      process_most_recent_file pfx env none =
        (.logTargetInfo (maxByMtime hd tl).name ::
          (load_to_dataframe env (maxByMtime hd tl).name).1,
         (load_to_dataframe env (maxByMtime hd tl).name).2) ∧
      ExcelEvent.unlinkFile (maxByMtime hd tl).name ∈
        (delete_most_recent_file pfx env none).1) ∧
    (matchingFiles pfx env.listing = [] →
      (process_most_recent_file pfx env none).2.success = false ∧
      (delete_most_recent_file pfx env none).2 = false) := by
  constructor
  · intro hd tl hm
    have hmem : maxByMtime hd tl ∈ matchingFiles pfx env.listing := by
      rw [hm]; exact maxByMtime_mem hd tl
    have hfilter := List.mem_filter.mp hmem
    refine ⟨hfilter.2, hfilter.1, ?_, ?_, ?_⟩
    · intro g hg
      rw [hm] at hg
      exact maxByMtime_maximal hd tl g hg
    · simp [process_most_recent_file, resolveTarget, find_most_recent_file, hm]
    · simp only [delete_most_recent_file, resolveTarget,
        find_most_recent_file, hm]
      cases henv : env.unlink (maxByMtime hd tl).name <;> simp [henv]
  · intro hm
    constructor
    · simp [process_most_recent_file, resolveTarget, find_most_recent_file, hm]
    · simp [delete_most_recent_file, resolveTarget, find_most_recent_file, hm]

/-- Witness for C10: the fallback picks the newer matching file among
two, and both methods report failure on a directory without a match. -/
theorem handler_none_path_fallback_witness :
    (strStartsWith (maxByMtime ⟨"CONSULTA_A", 5⟩ [⟨"CONSULTA_B", 7⟩]).name
        "CONSULTA" = true ∧
      maxByMtime ⟨"CONSULTA_A", 5⟩ [⟨"CONSULTA_B", 7⟩] ∈ envFsTwoFiles.listing ∧
      (∀ g ∈ matchingFiles "CONSULTA" envFsTwoFiles.listing,
        g.mtime ≤ (maxByMtime ⟨"CONSULTA_A", 5⟩ [⟨"CONSULTA_B", 7⟩]).mtime) ∧
      process_most_recent_file "CONSULTA" envFsTwoFiles none =
        (.logTargetInfo (maxByMtime ⟨"CONSULTA_A", 5⟩ [⟨"CONSULTA_B", 7⟩]).name ::
          (load_to_dataframe envFsTwoFiles
            (maxByMtime ⟨"CONSULTA_A", 5⟩ [⟨"CONSULTA_B", 7⟩]).name).1,
         (load_to_dataframe envFsTwoFiles
           (maxByMtime ⟨"CONSULTA_A", 5⟩ [⟨"CONSULTA_B", 7⟩]).name).2) ∧
      ExcelEvent.unlinkFile (maxByMtime ⟨"CONSULTA_A", 5⟩ [⟨"CONSULTA_B", 7⟩]).name ∈
        (delete_most_recent_file "CONSULTA" envFsTwoFiles none).1) ∧
    ((process_most_recent_file "CONSULTA" envFsEmpty none).2.success = false ∧
      (delete_most_recent_file "CONSULTA" envFsEmpty none).2 = false) :=
  ⟨(handler_none_path_fallback "CONSULTA" envFsTwoFiles).1
      ⟨"CONSULTA_A", 5⟩ [⟨"CONSULTA_B", 7⟩] (by decide),
   (handler_none_path_fallback "CONSULTA" envFsEmpty).2 (by decide)⟩

/-! ## The time format and the successful exit -/

/-- Helper: the two digit padded rendering of a minute or second
count is two digit characters. -/
theorem isTwoDigits_pad2 : ∀ m, m < 60 → isTwoDigits (pad2 m) = true := by
  decide

/-- Helper: the unpadded rendering of an hour count below 24 is one
or two digit characters. -/
theorem isOneOrTwoDigits_natChars :
    ∀ h, h < 24 → isOneOrTwoDigits (natChars h) = true := by
  decide

/-- Helper: gluing digit groups with colons and padding to eight
characters yields the zero padded HH:MM:SS shape. -/
theorem isHMSChars_assemble (hc mc sc : List Char)
    (hh : isOneOrTwoDigits hc = true) (hm : isTwoDigits mc = true)
    (hs : isTwoDigits sc = true) :
    isHMSChars (zfillChars 8 (hc ++ ':' :: (mc ++ ':' :: sc))) = true := by
  rcases mc with _ | ⟨c, mc2⟩
  · simp [isTwoDigits] at hm
  rcases mc2 with _ | ⟨d2, mc3⟩
  · simp [isTwoDigits] at hm
  rcases mc3 with _ | ⟨x, mc4⟩
  swap
  · simp [isTwoDigits] at hm
  rcases sc with _ | ⟨e, sc2⟩
  · simp [isTwoDigits] at hs
  rcases sc2 with _ | ⟨f, sc3⟩
  · simp [isTwoDigits] at hs
  rcases sc3 with _ | ⟨y, sc4⟩
  swap
  · simp [isTwoDigits] at hs
  simp [isTwoDigits] at hm hs
  rcases hc with _ | ⟨a, hc2⟩
  · simp [isOneOrTwoDigits] at hh
  rcases hc2 with _ | ⟨b, hc3⟩
  · simp [isOneOrTwoDigits] at hh
    simp [zfillChars, isHMSChars, hh, hm.1, hm.2, hs.1, hs.2]
  rcases hc3 with _ | ⟨z, hc4⟩
  · simp [isOneOrTwoDigits] at hh
    simp [zfillChars, isHMSChars, hh.1, hh.2, hm.1, hm.2, hs.1, hs.2]
  · simp [isOneOrTwoDigits] at hh

/-- Helper: below one day of elapsed seconds, the logged duration has
the zero padded HH:MM:SS shape. -/
theorem readableTime_HMS (n : Nat) (h : n < 86400) :
    isZeroPaddedHMS (readableTime n) = true := by
  have hd : n / 86400 = 0 := Nat.div_eq_of_lt h
  have hmod : n % 86400 = n := Nat.mod_eq_of_lt h
  have hh : n % 86400 / 3600 < 24 := by
    rw [hmod]
    exact (Nat.div_lt_iff_lt_mul (by norm_num)).mpr (by omega)
  have hm : n % 3600 / 60 < 60 := by
    have hx : n % 3600 < 3600 := Nat.mod_lt _ (by norm_num)
    exact (Nat.div_lt_iff_lt_mul (by norm_num)).mpr (by omega)
  have hs : n % 60 < 60 := Nat.mod_lt _ (by norm_num)
  have hassemble := isHMSChars_assemble (natChars (n % 86400 / 3600))
    (pad2 (n % 3600 / 60)) (pad2 (n % 60))
    (isOneOrTwoDigits_natChars _ hh) (isTwoDigits_pad2 _ hm)
    (isTwoDigits_pad2 _ hs)
  simpa [isZeroPaddedHMS, readableTime, strTimedelta, hd] using hassemble

/-- Helper: the retry loop with zero attempts remaining. -/
theorem run_from_zero (cfg : OrchestratorConfig) (env : PipelineEnv) (k : Nat) :
    run_from cfg env k 0 = ([.logCriticalExhausted], 1) := rfl

/-- Helper: a successful attempt ends the loop via sys.exit(0). -/
theorem run_from_succ_success (cfg : OrchestratorConfig) (env : PipelineEnv)
    (k r : Nat) (ts : String) (h : attempt_body cfg env k = .success ts) :
    run_from cfg env k (r + 1) = ([.logAttemptStart k, .logDone ts], 0) := by
  simp [run_from, h]

/-- Helper: an attempt ending in a caught exception logs, waits when
the always true guard allows, and recurses. -/
theorem run_from_succ_failedExc (cfg : OrchestratorConfig) (env : PipelineEnv)
    (k r : Nat) (e : PyExc) (h : attempt_body cfg env k = .failedExc e) :
    run_from cfg env k (r + 1) =
      (([.logAttemptStart k, .logWarnFailure k] ++
        (if k ≤ cfg.max_retries then
          [PipeEvent.logWaitInfo, .sleepDelay cfg.retry_delay]
        else [])) ++ (run_from cfg env (k + 1) r).1,
       (run_from cfg env (k + 1) r).2) := by
  simp [run_from, h]

/-- Helper: a False load raises nothing, so the loop silently moves
to the next attempt. -/
theorem run_from_succ_failedLoad (cfg : OrchestratorConfig) (env : PipelineEnv)
    (k r : Nat) (h : attempt_body cfg env k = .failedLoad) :
    run_from cfg env k (r + 1) =
      (.logAttemptStart k :: (run_from cfg env (k + 1) r).1,
       (run_from cfg env (k + 1) r).2) := by
  simp [run_from, h]

/-- C7 as amended: if every attempt before k fails and attempt k
completes a successful load with below one day elapsed, the pipeline
exits with status 0, runs exactly k attempts (none after the
success), and logs the elapsed duration in zero padded HH:MM:SS
shape. -/
theorem run_pipeline_success_exits_zero (vcfg : VPNConfig) (env : PipelineEnv)
    (k : Nat) (hk1 : 1 ≤ k) (hk3 : k ≤ 3)
    (hfail : ∀ j, 1 ≤ j → j < k →
      ∀ ts, attempt_body (defaultOrchestrator vcfg) env j ≠ .success ts)
    (hsucc : attempt_body (defaultOrchestrator vcfg) env k =
      .success (readableTime (env.elapsed k)))
    (helapsed : env.elapsed k < 86400) :
    (run_pipeline (defaultOrchestrator vcfg) env).2 = 0 ∧
    (run_pipeline (defaultOrchestrator vcfg) env).1.countP isAttemptStart = k ∧
    PipeEvent.logDone (readableTime (env.elapsed k)) ∈
      (run_pipeline (defaultOrchestrator vcfg) env).1 ∧
    isZeroPaddedHMS (readableTime (env.elapsed k)) = true := by
  have hfmt := readableTime_HMS _ helapsed
  have h3 : (defaultOrchestrator vcfg).max_retries = 3 := rfl
  interval_cases k
  · rw [run_pipeline, h3, show (3 : Nat) = 2 + 1 from rfl,
      run_from_succ_success _ _ _ _ _ hsucc]
    simp [isAttemptStart, hfmt]
  · rcases hab1 : attempt_body (defaultOrchestrator vcfg) env 1 with ts | e | _
    · exact absurd hab1 (hfail 1 (by omega) (by omega) ts)
    · rw [run_pipeline, h3, show (3 : Nat) = 2 + 1 from rfl,
        run_from_succ_failedExc _ _ _ _ _ hab1,
        show (2 : Nat) = 1 + 1 from rfl,
        run_from_succ_success _ _ _ _ _ hsucc]
      simp [isAttemptStart, hfmt, defaultOrchestrator, List.countP_append,
        List.countP_cons]
    · rw [run_pipeline, h3, show (3 : Nat) = 2 + 1 from rfl,
        run_from_succ_failedLoad _ _ _ _ hab1,
        show (2 : Nat) = 1 + 1 from rfl,
        run_from_succ_success _ _ _ _ _ hsucc]
      simp [isAttemptStart, hfmt, List.countP_cons]
  · rcases hab1 : attempt_body (defaultOrchestrator vcfg) env 1 with ts | e | _
    · exact absurd hab1 (hfail 1 (by omega) (by omega) ts)
    all_goals
      rcases hab2 : attempt_body (defaultOrchestrator vcfg) env 2 with ts | e2 | _
    · exact absurd hab2 (hfail 2 (by omega) (by omega) ts)
    · rw [run_pipeline, h3, show (3 : Nat) = 2 + 1 from rfl,
        run_from_succ_failedExc _ _ _ _ _ hab1,
        show (2 : Nat) = 1 + 1 from rfl,
        run_from_succ_failedExc _ _ _ _ _ hab2,
        show (1 : Nat) = 0 + 1 from rfl,
        run_from_succ_success _ _ _ _ _ hsucc]
      simp [isAttemptStart, hfmt, defaultOrchestrator, List.countP_append,
        List.countP_cons]
    · rw [run_pipeline, h3, show (3 : Nat) = 2 + 1 from rfl,
        run_from_succ_failedExc _ _ _ _ _ hab1,
        show (2 : Nat) = 1 + 1 from rfl,
        run_from_succ_failedLoad _ _ _ _ hab2,
        show (1 : Nat) = 0 + 1 from rfl,
        run_from_succ_success _ _ _ _ _ hsucc]
      simp [isAttemptStart, hfmt, defaultOrchestrator, List.countP_append,
        List.countP_cons]
    · exact absurd hab2 (hfail 2 (by omega) (by omega) ts)
    · rw [run_pipeline, h3, show (3 : Nat) = 2 + 1 from rfl,
        run_from_succ_failedLoad _ _ _ _ hab1,
        show (2 : Nat) = 1 + 1 from rfl,
        run_from_succ_failedExc _ _ _ _ _ hab2,
        show (1 : Nat) = 0 + 1 from rfl,
        run_from_succ_success _ _ _ _ _ hsucc]
      simp [isAttemptStart, hfmt, defaultOrchestrator, List.countP_append,
        List.countP_cons]
    · rw [run_pipeline, h3, show (3 : Nat) = 2 + 1 from rfl,
        run_from_succ_failedLoad _ _ _ _ hab1,
        show (2 : Nat) = 1 + 1 from rfl,
        run_from_succ_failedLoad _ _ _ _ hab2,
        show (1 : Nat) = 0 + 1 from rfl,
        run_from_succ_success _ _ _ _ _ hsucc]
      simp [isAttemptStart, hfmt, List.countP_cons]

/-- Witness for the amended C7: the first attempt fails at the VPN
stage, the second succeeds at 3661 elapsed seconds, logged as
01:01:01. -/
theorem run_pipeline_success_exits_zero_witness :
    (run_pipeline (defaultOrchestrator ⟨5⟩) envRetryThenOk).2 = 0 ∧
    (run_pipeline (defaultOrchestrator ⟨5⟩) envRetryThenOk).1.countP
      isAttemptStart = 2 ∧
    PipeEvent.logDone (readableTime (envRetryThenOk.elapsed 2)) ∈
      (run_pipeline (defaultOrchestrator ⟨5⟩) envRetryThenOk).1 ∧
    isZeroPaddedHMS (readableTime (envRetryThenOk.elapsed 2)) = true := by
  refine run_pipeline_success_exits_zero ⟨5⟩ envRetryThenOk 2 (by decide)
    (by decide) ?_ rfl (by decide)
  intro j hj1 hj2 ts hcon
  have hj : j = 1 := by omega
  subst hj
  rw [show attempt_body (defaultOrchestrator ⟨5⟩) envRetryThenOk 1 =
    .failedExc .connectionError from rfl] at hcon
  exact AttemptOutcome.noConfusion hcon

end Sigitm
